import Mathlib

/-!
Verification development for the etiql golang API repository.

The repository queries BigQuery and reshapes flat tabular results into
client-ready JSON. We shallowly embed the two cores:

* the order aggregation engine (grouping purchase-order line rows by
  (order id, delivery date), validating dates, filtering degenerate items,
  and emitting a keyed response map), and
* the single-style SKU metrics reconciliation (the large SQL query in
  getSkuMetricsSingle: five CTE sources, key union, left-outer merge with
  zero defaults, half-size label normalization and the 12-month pivot),

together with the HTTP-level behavior of the handlers (status codes, cache
directives, error bodies, and the row-iteration loop).

Machine integers (int64) are modelled as Int; all BigQuery aggregates here
(SUM, MAX, COUNT) are exact integer operations. Nullable SQL columns are
modelled as Option. Go map iteration order is not specified; our embedding
fixes first-appearance order, and no theorem below depends on that choice
beyond determinism.
-/

namespace Etiql

/-! ## Calendar dates

BigQuery DATE values and parsed Go time values are modelled as
year/month/day triples compared lexicographically. -/

structure Date where
  year : Nat
  month : Nat
  day : Nat
deriving DecidableEq

def dateLe (a b : Date) : Bool :=
  if a.year < b.year then true
  else if b.year < a.year then false
  else if a.month < b.month then true
  else if b.month < a.month then false
  else decide (a.day ≤ b.day)

def isLeap (y : Nat) : Bool :=
  (y % 4 == 0 && !(y % 100 == 0)) || y % 400 == 0

def daysInMonth (y m : Nat) : Nat :=
  if m = 2 then (if isLeap y then 29 else 28)
  else if m = 4 || m = 6 || m = 9 || m = 11 then 30
  else 31

def digitVal (c : Char) : Option Nat :=
  if c.isDigit then some (c.toNat - 48) else none

def natOfDigits (l : List Char) : Option Nat :=
  l.foldlM (fun acc c => (digitVal c).map (fun d => acc * 10 + d)) 0

/-- Strict parse of a "YYYY-MM-DD" calendar date, as Go
time.Parse("2006-01-02", s): exactly ten characters, two dashes, digits
elsewhere, month in 1..12 and a day valid for that month/year. -/
def parseDate (s : String) : Option Date :=
  match s.toList with
  | [y1, y2, y3, y4, h1, m1, m2, h2, d1, d2] =>
    if h1 == '-' && h2 == '-' then
      match natOfDigits [y1, y2, y3, y4], natOfDigits [m1, m2], natOfDigits [d1, d2] with
      | some y, some m, some d =>
        if 1 ≤ m && m ≤ 12 && 1 ≤ d && d ≤ daysInMonth y m then
          some ⟨y, m, d⟩
        else none
      | _, _, _ => none
    else none
  | _ => none

/-- DATE_SUB(d, INTERVAL 24 MONTH): two years back, clamping the day to the
target month length. -/
def dateSub24Months (d : Date) : Date :=
  ⟨d.year - 2, d.month, min d.day (daysInMonth (d.year - 2) d.month)⟩

/-! ## Generic list machinery (SQL GROUP BY / lookup / ORDER BY) -/

def assocLookup {κ β : Type} [DecidableEq κ] (k : κ) : List (κ × β) → Option β
  | [] => none
  | (k0, v) :: rest => if k0 = k then some v else assocLookup k rest

/-- Overwriting insert into an association list, as assignment into a Go map. -/
def setAssoc {β : Type} (k : String) (v : β) : List (String × β) → List (String × β)
  | [] => [(k, v)]
  | (k0, v0) :: rest => if k0 = k then (k, v) :: rest else (k0, v0) :: setAssoc k v rest

def sumBy {α κ : Type} [DecidableEq κ] (l : List α) (key : α → κ) (val : α → Int) (k : κ) : Int :=
  ((l.filter (fun x => decide (key x = k))).map val).sum

/-- SELECT key, SUM(val) ... GROUP BY key, in first-appearance key order. -/
def groupSums {α κ : Type} [DecidableEq κ] (l : List α) (key : α → κ) (val : α → Int) :
    List (κ × Int) :=
  ((l.map key).dedup).map (fun k => (k, sumBy l key val k))

/-- SELECT key, COUNT(*) ... GROUP BY key. -/
def groupCounts {κ : Type} [DecidableEq κ] (l : List κ) : List (κ × Int) :=
  (l.dedup).map (fun k => (k, ((l.filter (fun x => decide (x = k))).length : Int)))

/-- MAX over a row group (SQL groups are nonempty; [] is never reached). -/
def listMax1 : List Int → Int
  | [] => 0
  | x :: xs => xs.foldl max x

/-- Lexicographic comparison of character lists, as BigQuery compares the
delivery_date strings of the purchase-orders query. -/
def charsLe : List Char → List Char → Bool
  | [], _ => true
  | _ :: _, [] => false
  | x :: xs, y :: ys =>
    if x.toNat < y.toNat then true
    else if y.toNat < x.toNat then false
    else charsLe xs ys

def strLe (a b : String) : Bool := charsLe a.toList b.toList

def strLt (a b : String) : Bool := strLe a b && !(a == b)

/-- SUBSTRING(s, 1, n): the first n characters (BigQuery SUBSTR counts
characters). -/
def strTake (s : String) (n : Nat) : String := ⟨s.toList.take n⟩

/-- SUBSTRING(s, n+1): everything after the first n characters. -/
def strDrop (s : String) (n : Nat) : String := ⟨s.toList.drop n⟩

def insertLe {α : Type} (le : α → α → Bool) (x : α) : List α → List α
  | [] => [x]
  | y :: ys => if le x y then x :: y :: ys else y :: insertLe le x ys

def sortLe {α : Type} (le : α → α → Bool) (l : List α) : List α :=
  l.foldr (insertLe le) []

/-! ## Order aggregation engine

Types and logic of the aggregating getPurchaseOrders variant and its
helper transformOrderFromItems (src/unnamed/part_000 lines 191-364, the
same code appears in src/unnamed/part_003). -/

structure OrderItem where
  sku : String
  quantity : Int
deriving DecidableEq

structure Order where
  estimatedDeliveryDate : String
  items : List OrderItem
deriving DecidableEq

/-- One flat row of the purchase-orders query: an order id and delivery
date together with one unnested line item. -/
structure BigQueryOrderItem where
  id : Int
  deliveryDate : String
  productID : Int
  sku : String
  size : String
  quantity : Int
deriving DecidableEq

def transformOrderFromItems (orderID : Int) (deliveryDate : String)
    (items : List BigQueryOrderItem) : Option Order :=
  if deliveryDate = "" || items.isEmpty then none
  else if (parseDate deliveryDate).isNone then none
  else
    let orderItems := (items.filter (fun i => decide (0 < i.quantity) && decide (0 < i.productID))).map
      (fun i => { sku := "ETIQL" ++ toString i.productID, quantity := i.quantity })
    if orderItems.isEmpty then none
    else some { estimatedDeliveryDate := deliveryDate, items := orderItems }

/-- The (order id, delivery date) group keys of the nested
orderMap[item.ID][item.DeliveryDate], in first-appearance order. -/
def groupKeysPO (rows : List BigQueryOrderItem) : List (Int × String) :=
  (rows.map (fun i => (i.id, i.deliveryDate))).dedup

def groupRowsPO (rows : List BigQueryOrderItem) (k : Int × String) : List BigQueryOrderItem :=
  rows.filter (fun i => decide ((i.id, i.deliveryDate) = k))

/-- The response map built by the aggregating handler: every surviving
group is written at key "order_" ++ id, later writes overwriting earlier
ones. -/
def buildPurchaseOrdersResponse (rows : List BigQueryOrderItem) : List (String × Order) :=
  (groupKeysPO rows).foldl
    (fun acc k =>
      match transformOrderFromItems k.1 k.2 (groupRowsPO rows k) with
      | none => acc
      | some o => setAssoc ("order_" ++ toString k.1) o acc)
    []

/-! ## Single-style SKU metrics reconciliation

Shallow embedding of the SQL query of getSkuMetricsSingle
(src/sku_metrics_single.go lines 25-157) from its base tables. Each CTE
becomes a function of the base tables, the requested sku id and the
current date. -/

structure VariantRow where
  id : Int
  sku : String
  base_sku : String
  size : Option String
deriving DecidableEq

structure ProductRow where
  id : Int
  sku : String
deriving DecidableEq

structure InventoryRow where
  product_id : Int
  warehouse : Option String
  date : Date
  quantity : Int
deriving DecidableEq

structure PodRow where
  base_sku : String
  size : Option String
  confirmed_delivery_date : Date
  quantity : Int
deriving DecidableEq

structure ShopOrderItemRow where
  variant_id : Int
  created_at : Date
  item_quantity : Int
deriving DecidableEq

structure OpenOrderRow where
  product_sku : Option String
  order_date : Date
deriving DecidableEq

/-- The staging tables referenced by the query. -/
structure Db where
  variants : List VariantRow
  products : List ProductRow
  inventory : List InventoryRow
  purchaseOrderDetails : List PodRow
  ordersItems : List ShopOrderItemRow
  openOrders : List OpenOrderRow

/-- latest_inventory_date: MAX(date) over inventory rows with a non-null
warehouse (none when the table is empty, so no inventory row joins). -/
def latestInventoryDate (db : Db) : Option Date :=
  match (db.inventory.filter (fun i => decide (i.warehouse ≠ none))).map (fun i => i.date) with
  | [] => none
  | d :: ds => some (ds.foldl (fun a b => if dateLe a b then b else a) d)

/-- The joined, filtered rows feeding inventory_metrics, as
((base_sku, size), quantity). -/
def invRows (db : Db) (skuId : String) : List ((String × Option String) × Int) :=
  (db.variants.flatMap (fun v =>
    db.products.flatMap (fun p =>
      db.inventory.map (fun i => (v, p, i))))).filterMap
    (fun x =>
      if decide (x.1.base_sku = skuId) && decide (x.2.1.sku = x.1.sku)
          && decide (x.2.2.product_id = x.2.1.id)
          && decide (x.2.2.warehouse ≠ none)
          && decide (some x.2.2.date = latestInventoryDate db) then
        some ((x.1.base_sku, x.1.size), x.2.2.quantity)
      else none)

def inventory_metrics (db : Db) (skuId : String) : List ((String × Option String) × Int) :=
  groupSums (invRows db skuId) (fun r => r.1) (fun r => r.2)

def podRows (db : Db) (skuId : String) (today : Date) : List ((String × Option String) × Int) :=
  db.purchaseOrderDetails.filterMap (fun r =>
    if dateLe today r.confirmed_delivery_date && decide (r.base_sku = skuId) then
      some ((r.base_sku, r.size), r.quantity)
    else none)

def purchased_items (db : Db) (skuId : String) (today : Date) :
    List ((String × Option String) × Int) :=
  groupSums (podRows db skuId today) (fun r => r.1) (fun r => r.2)

/-- Joined Shopify order-item/variant rows inside the 24-month window for
the requested sku, keyed by (base_sku, SUBSTRING(variant sku, 10)), and
carrying the event date. -/
def soldRows (db : Db) (skuId : String) (today : Date) :
    List ((String × String) × Date × Int) :=
  (db.ordersItems.flatMap (fun o => db.variants.map (fun v => (o, v)))).filterMap
    (fun x =>
      if decide (x.2.id = x.1.variant_id)
          && dateLe (dateSub24Months today) x.1.created_at
          && decide (x.2.base_sku = skuId) then
        some ((x.2.base_sku, strDrop x.2.sku 9), x.1.created_at, x.1.item_quantity)
      else none)

def sold_items_total (db : Db) (skuId : String) (today : Date) : List ((String × String) × Int) :=
  groupSums (soldRows db skuId today) (fun r => r.1) (fun r => r.2.2)

/-- sold_items_monthly: grouped by (sku, size, year, month); the SQL also
groups by year_month and month_name, both determined by (year, month). -/
def sold_items_monthly (db : Db) (skuId : String) (today : Date) :
    List (((String × String) × Nat × Nat) × Int) :=
  groupSums (soldRows db skuId today)
    (fun r => (r.1, r.2.1.year, r.2.1.month)) (fun r => r.2.2)

/-- One pivot bucket: MAX(CASE WHEN month_name = bucket THEN monthly_sold
ELSE 0 END) over the per-key monthly rows. -/
def pivotBucket (grp : List ((Nat × Nat) × Int)) (m : Nat) : Int :=
  listMax1 (grp.map (fun r => if r.1.2 = m then r.2 else 0))

/-- The per-key monthly group feeding one pivot row: the (year, month,
monthly_sold) entries of a (sku, size) key. -/
def monthGroup (db : Db) (skuId : String) (today : Date) (k : String × String) :
    List ((Nat × Nat) × Int) :=
  ((sold_items_monthly db skuId today).filter (fun r => decide (r.1.1 = k))).map
    (fun r => (r.1.2, r.2))

/-- sold_items_monthly_pivot: per (sku, size), the twelve buckets
January..December (index 0 is January). -/
def sold_items_monthly_pivot (db : Db) (skuId : String) (today : Date) :
    List ((String × String) × List Int) :=
  (((sold_items_monthly db skuId today).map (fun r => r.1.1)).dedup).map
    (fun k =>
      (k, (List.range 12).map (fun j => pivotBucket (monthGroup db skuId today k) (j + 1))))

/-- The pre-grouping key rows of the open_orders CTE: one
(SUBSTRING(product_sku,1,9), SUBSTRING(product_sku,10)) pair per open
order with a non-null product sku since 2024-09-01 matching the requested
sku. -/
def openKeyRows (db : Db) (skuId : String) : List (String × String) :=
  db.openOrders.filterMap (fun o =>
    match o.product_sku with
    | none => none
    | some s =>
      if dateLe ⟨2024, 9, 1⟩ o.order_date && decide (strTake s 9 = skuId) then
        some (strTake s 9, strDrop s 9)
      else none)

/-- open_orders: COUNT(*) per key over the rows above. -/
def open_orders (db : Db) (skuId : String) : List ((String × String) × Int) :=
  groupCounts (openKeyRows db skuId)

/-- all_sizes: DISTINCT (sku, size) over four of the five sources — the
monthly CTE is not part of the union — with null sizes excluded. The sold
and open-orders sizes are substrings and never null, so their IS NOT NULL
filters are vacuous. -/
def all_sizes (db : Db) (skuId : String) (today : Date) : List (String × String) :=
  (((inventory_metrics db skuId).filterMap (fun r =>
      match r.1.2 with | none => none | some s => some (r.1.1, s))
    ++ (purchased_items db skuId today).filterMap (fun r =>
      match r.1.2 with | none => none | some s => some (r.1.1, s))
    ++ (sold_items_total db skuId today).map (fun r => r.1)
    ++ (open_orders db skuId).map (fun r => r.1))).dedup

/-- The half-size display normalization of the final SELECT. -/
def normalizeSize (s : String) : String :=
  if s = "385" then "38.5"
  else if s = "395" then "39.5"
  else if s = "425" then "42.5"
  else if s = "435" then "43.5"
  else s

structure MetricRow where
  sku : String
  product_id : Option Int
  size : String
  available_count : Int
  purchased_count : Int
  sold_last_24_months : Int
  sold_january : Int
  sold_february : Int
  sold_march : Int
  sold_april : Int
  sold_may : Int
  sold_june : Int
  sold_july : Int
  sold_august : Int
  sold_september : Int
  sold_october : Int
  sold_november : Int
  sold_december : Int
  open_orders_quantity : Int
deriving DecidableEq

/-- COALESCE(sm.sold_<month>, 0) for the pivot lookup result. -/
def monthVal (sm : Option (List Int)) (m : Nat) : Int :=
  match sm with
  | none => 0
  | some l => (l.get? (m - 1)).getD 0

/-- One output record of the final SELECT for a unified key, given the
product id resolved by the products join. -/
def mkMetricRow (db : Db) (skuId : String) (today : Date) (k : String × String)
    (pid : Option Int) : MetricRow :=
  let inv := assocLookup (k.1, some k.2) (inventory_metrics db skuId)
  let pur := assocLookup (k.1, some k.2) (purchased_items db skuId today)
  let tot := assocLookup k (sold_items_total db skuId today)
  let sm := assocLookup k (sold_items_monthly_pivot db skuId today)
  let oo := assocLookup k (open_orders db skuId)
  { sku := k.1
    product_id := pid
    size := normalizeSize k.2
    available_count := inv.getD 0
    purchased_count := pur.getD 0
    sold_last_24_months := tot.getD 0
    sold_january := monthVal sm 1
    sold_february := monthVal sm 2
    sold_march := monthVal sm 3
    sold_april := monthVal sm 4
    sold_may := monthVal sm 5
    sold_june := monthVal sm 6
    sold_july := monthVal sm 7
    sold_august := monthVal sm 8
    sold_september := monthVal sm 9
    sold_october := monthVal sm 10
    sold_november := monthVal sm 11
    sold_december := monthVal sm 12
    open_orders_quantity := oo.getD 0 }

/-- LEFT JOIN against the products catalog on CONCAT(a.sku, a.size): the
matching catalog rows for a unified key (raw, un-normalized size). -/
def productMatches (db : Db) (k : String × String) : List ProductRow :=
  db.products.filter (fun p => decide (p.sku = k.1 ++ k.2))

/-- The full result set of the single-sku metrics query: the final
SELECT DISTINCT over all_sizes left-joined with the five sources and the
products catalog. An unmatched products join yields a null product_id; n
matching catalog rows yield n joined rows before DISTINCT. -/
def skuMetricsSingleQuery (db : Db) (skuId : String) (today : Date) : List MetricRow :=
  (((all_sizes db skuId today).filter (fun k => decide (k.1 = skuId))).flatMap
    (fun k =>
      match productMatches db k with
      | [] => [mkMetricRow db skuId today k none]
      | ps => ps.map (fun p => mkMetricRow db skuId today k (some p.id)))).dedup

/-! ## HTTP layer

Responses are status + optional Cache-Control header + JSON body. A query
outcome is either a failure of query.Read (Except.error) or a row stream:
the rows delivered by the iterator before it stopped, plus an optional
mid-stream iterator error (none models the normal "no more items" end).
The handlers' collection loops break on the first iterator error, so the
collected rows are exactly the stream's rows in either case. -/

inductive ResponseBody where
  | errorMsg (error : String) (details : Option String) (sku : Option String)
  | flatRows (rows : List BigQueryOrderItem)
  | metricRows (rows : List MetricRow)
  | orderMap (m : List (String × Order))
deriving DecidableEq

def ResponseBody.isOrderMap : ResponseBody → Bool
  | .orderMap _ => true
  | _ => false

structure Response where
  status : Nat
  cacheControl : Option String
  body : ResponseBody
deriving DecidableEq

structure RowStream (ρ : Type) where
  rows : List ρ
  midError : Option String
deriving DecidableEq

/-- The current GET /purchase-orders handler (src/purchase_orders.go):
after a successful query.Read it returns the collected flat rows as a 200
JSON array; any iterator error merely breaks the loop. -/
def getPurchaseOrders (outcome : Except String (RowStream BigQueryOrderItem)) : Response :=
  match outcome with
  | .error e =>
    { status := 500, cacheControl := none
      body := .errorMsg "Failed to query BigQuery" (some e) none }
  | .ok s =>
    { status := 200, cacheControl := some "private, max-age=300"
      body := .flatRows s.rows }

/-- The rows produced by the purchase-orders SQL: the unnested item rows
whose delivery_date (a string) is >= today in string order, ordered by
(delivery_date, id, product_id). -/
def purchaseOrdersQueryRows (table : List BigQueryOrderItem) (todayStr : String) :
    List BigQueryOrderItem :=
  sortLe
    (fun a b =>
      if a.deliveryDate ≠ b.deliveryDate then strLt a.deliveryDate b.deliveryDate
      else if a.id ≠ b.id then decide (a.id < b.id)
      else decide (a.productID ≤ b.productID))
    (table.filter (fun r => strLe todayStr r.deliveryDate))

/-- The aggregating GET /purchase-orders variant (src/unnamed/part_000
lines 269-334): on success it returns the keyed order map. -/
def getPurchaseOrdersAggregated (outcome : Except String (RowStream BigQueryOrderItem)) :
    Response :=
  match outcome with
  | .error e =>
    { status := 500, cacheControl := none
      body := .errorMsg "Failed to query BigQuery" (some e) none }
  | .ok s =>
    { status := 200, cacheControl := some "private, max-age=300"
      body := .orderMap (buildPurchaseOrdersResponse s.rows) }

/-- The GET /sku-metrics/:sku_id handler (src/sku_metrics_single.go):
400 on a missing sku id, 500 with details when query.Read fails, 404 with
the sku echoed when no rows were collected, else 200 with the rows and a
private 300-second cache directive. A mid-stream iterator error only
breaks the collection loop. -/
def getSkuMetricsSingle (skuId : String)
    (outcome : Except String (RowStream MetricRow)) : Response :=
  if skuId = "" then
    { status := 400, cacheControl := none
      body := .errorMsg "SKU ID is required" none none }
  else
    match outcome with
    | .error e =>
      { status := 500, cacheControl := none
        body := .errorMsg "Failed to query BigQuery" (some e) none }
    | .ok s =>
      if s.rows.isEmpty then
        { status := 404, cacheControl := none
          body := .errorMsg "SKU not found" none (some skuId) }
      else
        { status := 200, cacheControl := some "private, max-age=300"
          body := .metricRows s.rows }

/-! ## GET /all-purchase-orders query

The query of getAllPurchaseOrders (src/unnamed/part_003): per order, keep
the items whose product_id is nonzero, then keep only orders with a
nonempty item array. -/

structure POItemNested where
  product_id : Int
  sku : String
  size : String
  quantity : Int
deriving DecidableEq

structure PORecord where
  id : Int
  delivery_date : String
  items : List POItemNested
deriving DecidableEq

def filterOrderItems (o : PORecord) : PORecord :=
  { o with items := o.items.filter (fun i => decide (i.product_id ≠ 0)) }

def allPurchaseOrdersQuery (t : List PORecord) : List PORecord :=
  (t.map filterOrderItems).filter (fun o => decide (0 < o.items.length))

/-- The product-id column of the final select: Option.map over the first
catalog row whose sku is the concatenation of style and raw size. -/
def productIdLookup (db : Db) (k : String × String) : Option Int :=
  (db.products.find? (fun p => decide (p.sku = k.1 ++ k.2))).map (fun p => p.id)

/-- Selector for the twelve month columns of a metrics record, month 1
being January. -/
def monthField (r : MetricRow) : Nat → Int
  | 1 => r.sold_january
  | 2 => r.sold_february
  | 3 => r.sold_march
  | 4 => r.sold_april
  | 5 => r.sold_may
  | 6 => r.sold_june
  | 7 => r.sold_july
  | 8 => r.sold_august
  | 9 => r.sold_september
  | 10 => r.sold_october
  | 11 => r.sold_november
  | 12 => r.sold_december
  | _ => 0

/-! ## Concrete example data used by the claim theorems and witnesses -/

/-- An empty warehouse. -/
def dbEmpty : Db := ⟨[], [], [], [], [], []⟩

/-- One variant of style ABC123456 sold in January of two different years
inside the 24-month window: 5 units in January 2024, 3 in January 2025. -/
def dbC1 : Db :=
  { variants := [⟨1, "ABC123456M", "ABC123456", some "M"⟩]
    products := []
    inventory := []
    purchaseOrderDetails := []
    ordersItems := [⟨1, ⟨2024, 1, 15⟩, 5⟩, ⟨1, ⟨2025, 1, 20⟩, 3⟩]
    openOrders := [] }

/-- The same logical half size written as "385" by the inventory source
and as "38.5" by the open-orders source. -/
def dbC4 : Db :=
  { variants := [⟨1, "V1", "ABC123456", some "385"⟩]
    products := [⟨7, "V1"⟩]
    inventory := [⟨7, some "W", ⟨2025, 10, 1⟩, 4⟩]
    purchaseOrderDetails := []
    ordersItems := []
    openOrders := [⟨some "ABC12345638.5", ⟨2025, 1, 1⟩⟩] }

/-- A key present only in the open-orders source, with seven open order
rows (COUNT(*) = 7). -/
def dbC5 : Db :=
  { variants := []
    products := []
    inventory := []
    purchaseOrderDetails := []
    ordersItems := []
    openOrders :=
      [⟨some "ABC12345610", ⟨2025, 1, 2⟩⟩, ⟨some "ABC12345610", ⟨2025, 1, 3⟩⟩,
       ⟨some "ABC12345610", ⟨2025, 2, 2⟩⟩, ⟨some "ABC12345610", ⟨2025, 3, 2⟩⟩,
       ⟨some "ABC12345610", ⟨2025, 4, 2⟩⟩, ⟨some "ABC12345610", ⟨2025, 5, 2⟩⟩,
       ⟨some "ABC12345610", ⟨2025, 6, 2⟩⟩] }

/-- One order, two delivery dates, one valid item each. -/
def c3Rows : List BigQueryOrderItem :=
  [⟨1, "2025-01-10", 500, "SKU500", "42", 2⟩, ⟨1, "2025-02-01", 501, "SKU501", "43", 1⟩]

/-- The spec example: order 1 with two rows on 2025-01-10 (one with
product id 0) and one row on 2025-02-01. -/
def c6Rows : List BigQueryOrderItem :=
  [⟨1, "2025-01-10", 500, "SKU500", "42", 2⟩, ⟨1, "2025-01-10", 0, "SKU0", "42", 3⟩,
   ⟨1, "2025-02-01", 501, "SKU501", "43", 1⟩]

def c2Row : BigQueryOrderItem := ⟨1, "2025-12-01", 500, "SKU500", "42", 2⟩

def c9Row : MetricRow :=
  ⟨"ABC123456", none, "10", 0, 0, 0, 0, 0, 0, 0, 0, 0, 0, 0, 0, 0, 0, 0, 7⟩

def c10Table : List PORecord :=
  [⟨1, "2025-01-10", [⟨0, "A", "42", 3⟩]⟩,
   ⟨2, "2025-01-11", [⟨500, "B", "42", 2⟩, ⟨0, "C", "43", 1⟩]⟩]

/-! ## Supporting lemmas -/

theorem mem_insertLe {α : Type} (le : α → α → Bool) (x a : α) (l : List α) :
    a ∈ insertLe le x l ↔ a = x ∨ a ∈ l := by
  induction l with
  | nil => simp [insertLe]
  | cons y ys ih =>
    unfold insertLe
    by_cases h : le x y = true
    · simp [h]
    · rw [Bool.not_eq_true] at h
      rw [h]
      simp only [Bool.false_eq_true, if_false, List.mem_cons, ih]
      tauto

theorem mem_sortLe {α : Type} (le : α → α → Bool) (l : List α) (a : α) :
    a ∈ sortLe le l ↔ a ∈ l := by
  induction l with
  | nil => simp [sortLe]
  | cons y ys ih =>
    show a ∈ insertLe le y (sortLe le ys) ↔ _
    rw [mem_insertLe]
    simp [ih]

theorem mem_setAssoc {β : Type} (k : String) (v : β) (l : List (String × β))
    (kv : String × β) (h : kv ∈ setAssoc k v l) : kv = (k, v) ∨ kv ∈ l := by
  induction l with
  | nil => simpa [setAssoc] using h
  | cons y ys ih =>
    rcases y with ⟨y1, y2⟩
    by_cases hk : y1 = k
    · rw [setAssoc, if_pos hk] at h
      rcases List.mem_cons.mp h with h | h
      · exact Or.inl h
      · exact Or.inr (List.mem_cons_of_mem _ h)
    · rw [setAssoc, if_neg hk] at h
      rcases List.mem_cons.mp h with h | h
      · exact Or.inr (h ▸ List.mem_cons_self _ _)
      · rcases ih h with h2 | h2
        · exact Or.inl h2
        · exact Or.inr (List.mem_cons_of_mem _ h2)

theorem assocLookup_map_pair {κ β : Type} [DecidableEq κ] (keys : List κ) (f : κ → β)
    (h : keys.Nodup) (a : κ) :
    assocLookup a (keys.map (fun k => (k, f k))) = if a ∈ keys then some (f a) else none := by
  induction keys with
  | nil => simp [assocLookup]
  | cons k ks ih =>
    by_cases hka : k = a
    · subst hka
      simp [assocLookup]
    · have hks := (List.nodup_cons.mp h).2
      simp only [List.map_cons, assocLookup, hka, if_false, ih hks, List.mem_cons]
      have : ¬a = k := fun hh => hka hh.symm
      simp [this]

theorem assocLookup_groupSums {α κ : Type} [DecidableEq κ] (l : List α) (key : α → κ)
    (val : α → Int) (k : κ) :
    assocLookup k (groupSums l key val)
      = if k ∈ l.map key then some (sumBy l key val k) else none := by
  unfold groupSums
  rw [assocLookup_map_pair _ _ (List.nodup_dedup _)]
  simp [List.mem_dedup]

theorem assocLookup_groupCounts {κ : Type} [DecidableEq κ] (l : List κ) (k : κ) :
    assocLookup k (groupCounts l)
      = if k ∈ l then some (((l.filter (fun x => decide (x = k))).length : Int)) else none := by
  unfold groupCounts
  rw [assocLookup_map_pair _ _ (List.nodup_dedup _)]
  simp [List.mem_dedup]

theorem ite_some_none_eq {α : Type} {p : Prop} [Decidable p] {a b : α} :
    (if p then some a else none) = some b ↔ p ∧ a = b := by
  by_cases h : p
  · simp [h]
  · simp [h]

theorem countP_eq_one_of_nodup_mem {α : Type} [DecidableEq α] {l : List α} (h : l.Nodup)
    {a : α} (ha : a ∈ l) : l.countP (fun x => decide (x = a)) = 1 := by
  induction l with
  | nil => cases ha
  | cons x xs ih =>
    rcases List.nodup_cons.mp h with ⟨hx, hxs⟩
    rcases List.mem_cons.mp ha with rfl | ha2
    · have hz : xs.countP (fun x => decide (x = a)) = 0 := by
        apply List.countP_eq_zero.mpr
        intro b hb
        simp only [decide_eq_true_eq]
        intro hba
        exact hx (hba ▸ hb)
      rw [List.countP_cons, hz]
      simp
    · have hne : ¬x = a := fun hh => hx (hh ▸ ha2)
      rw [List.countP_cons, if_neg (by simp [hne])]
      simpa using ih hxs ha2

theorem find?_eq_head?_filter {α : Type} (p : α → Bool) (l : List α) :
    l.find? p = (l.filter p).head? := by
  induction l with
  | nil => rfl
  | cons x xs ih =>
    by_cases h : p x = true
    · rw [List.find?_cons_of_pos _ h, List.filter_cons_of_pos h, List.head?_cons]
    · rw [List.find?_cons_of_neg _ h, List.filter_cons_of_neg h, ih]

theorem groupSums_mem_fst {α κ : Type} [DecidableEq κ] {l : List α} {key : α → κ}
    {val : α → Int} {r : κ × Int} (h : r ∈ groupSums l key val) : r.1 ∈ l.map key := by
  unfold groupSums at h
  rcases List.mem_map.mp h with ⟨k, hk, hr⟩
  rw [← hr]
  exact List.mem_dedup.mp hk

theorem groupCounts_mem_fst {κ : Type} [DecidableEq κ] {l : List κ} {r : κ × Int}
    (h : r ∈ groupCounts l) : r.1 ∈ l := by
  unfold groupCounts at h
  rcases List.mem_map.mp h with ⟨k, hk, hr⟩
  rw [← hr]
  exact List.mem_dedup.mp hk

theorem invRows_fst {db : Db} {skuId : String} :
    ∀ r ∈ invRows db skuId, r.1.1 = skuId := by
  intro r hr
  rcases List.mem_filterMap.mp hr with ⟨a, _, heq⟩
  split at heq
  · rename_i hcond
    simp only [Bool.and_eq_true, decide_eq_true_eq] at hcond
    cases heq
    exact hcond.1.1.1.1
  · cases heq

theorem podRows_fst {db : Db} {skuId : String} {today : Date} :
    ∀ r ∈ podRows db skuId today, r.1.1 = skuId := by
  intro r hr
  rcases List.mem_filterMap.mp hr with ⟨a, _, heq⟩
  split at heq
  · rename_i hcond
    simp only [Bool.and_eq_true, decide_eq_true_eq] at hcond
    cases heq
    exact hcond.2
  · cases heq

theorem soldRows_fst {db : Db} {skuId : String} {today : Date} :
    ∀ r ∈ soldRows db skuId today, r.1.1 = skuId := by
  intro r hr
  rcases List.mem_filterMap.mp hr with ⟨a, _, heq⟩
  split at heq
  · rename_i hcond
    simp only [Bool.and_eq_true, decide_eq_true_eq] at hcond
    cases heq
    exact hcond.2
  · cases heq

set_option maxHeartbeats 800000

theorem openKeyRows_fst {db : Db} {skuId : String} :
    ∀ r ∈ openKeyRows db skuId, r.1 = skuId := by
  intro r hr
  rcases List.mem_filterMap.mp hr with ⟨a, _, heq⟩
  rcases a with ⟨ps, od⟩
  cases ps with
  | none => cases heq
  | some s =>
    have heq2 : (if (dateLe ⟨2024, 9, 1⟩ od && decide (strTake s 9 = skuId)) = true then
        some (strTake s 9, strDrop s 9) else none) = some r := heq
    rw [ite_some_none_eq] at heq2
    rcases heq2 with ⟨hcond, hv⟩
    simp only [Bool.and_eq_true, decide_eq_true_eq] at hcond
    rw [← hv]
    exact hcond.2

theorem mem_optKey_filterMap (l : List ((String × Option String) × Int)) (st : String)
    (sz : String) :
    ((st, sz) ∈ l.filterMap (fun r =>
        match r.1.2 with | none => none | some s2 => some (r.1.1, s2)))
      ↔ (st, some sz) ∈ l.map (fun r => r.1) := by
  rw [List.mem_filterMap, List.mem_map]
  constructor
  · rintro ⟨⟨⟨a1, a2⟩, av⟩, ha, heq⟩
    cases a2 with
    | none => cases heq
    | some s2 =>
      cases heq
      exact ⟨_, ha, rfl⟩
  · rintro ⟨⟨⟨a1, a2⟩, av⟩, ha, heq⟩
    cases heq
    exact ⟨⟨⟨st, some sz⟩, av⟩, ha, rfl⟩

theorem all_sizes_sku {db : Db} {skuId : String} {today : Date} :
    ∀ k ∈ all_sizes db skuId today, k.1 = skuId := by
  intro k hk
  rw [all_sizes, List.mem_dedup] at hk
  rcases List.mem_append.mp hk with hk | hopen
  rotate_left
  · rcases List.mem_map.mp hopen with ⟨r, hr, hfst⟩
    have := openKeyRows_fst _ (groupCounts_mem_fst hr)
    rw [← hfst]
    exact this
  rcases List.mem_append.mp hk with hk | hsold
  rotate_left
  · rcases List.mem_map.mp hsold with ⟨r, hr, hfst⟩
    rcases List.mem_map.mp (groupSums_mem_fst hr) with ⟨row, hrow, hkey⟩
    rw [← hfst, ← hkey]
    exact soldRows_fst row hrow
  rcases List.mem_append.mp hk with hinv | hpod
  · rcases List.mem_filterMap.mp hinv with ⟨r, hr, heq⟩
    rcases hsz : r.1.2 with _ | s
    all_goals rw [hsz] at heq
    · cases heq
    · cases heq
      rcases List.mem_map.mp (groupSums_mem_fst hr) with ⟨row, hrow, hkey⟩
      have := invRows_fst row hrow
      rw [hkey] at this
      exact this
  · rcases List.mem_filterMap.mp hpod with ⟨r, hr, heq⟩
    rcases hsz : r.1.2 with _ | s
    all_goals rw [hsz] at heq
    · cases heq
    · cases heq
      rcases List.mem_map.mp (groupSums_mem_fst hr) with ⟨row, hrow, hkey⟩
      have := podRows_fst row hrow
      rw [hkey] at this
      exact this

theorem mkMetricRow_mem_query (db : Db) (skuId : String) (today : Date)
    (k : String × String) (hk : k ∈ all_sizes db skuId today) :
    mkMetricRow db skuId today k (productIdLookup db k) ∈ skuMetricsSingleQuery db skuId today := by
  unfold skuMetricsSingleQuery
  rw [List.mem_dedup, List.mem_flatMap]
  refine ⟨k, ?_, ?_⟩
  · rw [List.mem_filter]
    exact ⟨hk, by simp [all_sizes_sku k hk]⟩
  · unfold productIdLookup
    rw [find?_eq_head?_filter]
    have hpm : db.products.filter (fun p => decide (p.sku = k.1 ++ k.2)) = productMatches db k := rfl
    rw [hpm]
    cases hm : productMatches db k with
    | nil => simp
    | cons p ps => exact List.mem_map.mpr ⟨p, List.mem_cons_self _ _, rfl⟩

theorem mem_query_eq_mk {db : Db} {skuId : String} {today : Date} {r : MetricRow}
    (hr : r ∈ skuMetricsSingleQuery db skuId today) :
    ∃ k ∈ all_sizes db skuId today, ∃ pid, r = mkMetricRow db skuId today k pid := by
  unfold skuMetricsSingleQuery at hr
  rw [List.mem_dedup, List.mem_flatMap] at hr
  rcases hr with ⟨k, hkf, hrb⟩
  have hk : k ∈ all_sizes db skuId today := (List.mem_filter.mp hkf).1
  refine ⟨k, hk, ?_⟩
  rcases hm : productMatches db k with _ | ⟨p, ps⟩
  all_goals rw [hm] at hrb
  · rcases List.mem_singleton.mp hrb with rfl
    exact ⟨none, rfl⟩
  · rcases List.mem_map.mp hrb with ⟨q, _, hq⟩
    exact ⟨some q.id, hq.symm⟩

theorem query_eq_nil_of_no_sizes {db : Db} {skuId : String} {today : Date}
    (h : all_sizes db skuId today = []) : skuMetricsSingleQuery db skuId today = [] := by
  unfold skuMetricsSingleQuery
  rw [h]
  rfl

theorem query_ne_nil_of_sizes {db : Db} {skuId : String} {today : Date}
    (h : all_sizes db skuId today ≠ []) : skuMetricsSingleQuery db skuId today ≠ [] := by
  rcases hA : all_sizes db skuId today with _ | ⟨k, rest⟩
  · exact absurd hA h
  · exact List.ne_nil_of_mem
      (mkMetricRow_mem_query db skuId today k (hA ▸ List.mem_cons_self k rest))

theorem assocLookup_pivot (db : Db) (skuId : String) (today : Date) (k : String × String) :
    assocLookup k (sold_items_monthly_pivot db skuId today)
      = if k ∈ (sold_items_monthly db skuId today).map (fun r => r.1.1) then
          some ((List.range 12).map (fun j => pivotBucket (monthGroup db skuId today k) (j + 1)))
        else none := by
  unfold sold_items_monthly_pivot
  rw [assocLookup_map_pair _ _ (List.nodup_dedup _)]
  by_cases hmem : k ∈ (sold_items_monthly db skuId today).map (fun r => r.1.1)
  · rw [if_pos (List.mem_dedup.mpr hmem), if_pos hmem]
  · rw [if_neg (fun hc => hmem (List.mem_dedup.mp hc)), if_neg hmem]

theorem monthVal_buckets (grp : List ((Nat × Nat) × Int)) (m : Nat) (h1 : 1 ≤ m)
    (h2 : m ≤ 12) :
    monthVal (some ((List.range 12).map (fun j => pivotBucket grp (j + 1)))) m
      = pivotBucket grp m := by
  have hlt : m - 1 < 12 := by omega
  simp only [monthVal]
  rw [List.get?_map, List.get?_range hlt]
  show pivotBucket grp (m - 1 + 1) = pivotBucket grp m
  congr 1
  omega

/-- Full characterization of transformOrderFromItems: a group survives
exactly when the delivery date is nonempty and parses, the group is
nonempty and at least one row passes the positivity filter; the surviving
order carries the date and the mapped items. -/
theorem transform_characterization (oid : Int) (d : String) (items : List BigQueryOrderItem) :
    transformOrderFromItems oid d items
      = if d = "" ∨ items = [] ∨ parseDate d = none
            ∨ items.filter (fun i => decide (0 < i.quantity) && decide (0 < i.productID)) = []
        then none
        else some ⟨d, (items.filter (fun i => decide (0 < i.quantity) && decide (0 < i.productID))).map
            (fun i => ⟨"ETIQL" ++ toString i.productID, i.quantity⟩)⟩ := by
  unfold transformOrderFromItems
  by_cases h1 : d = ""
  · simp [h1]
  by_cases h2 : items = []
  · simp [h1, h2]
  by_cases h3 : parseDate d = none
  · simp [h1, h2, h3, List.isEmpty_iff]
  by_cases h4 : items.filter (fun i => decide (0 < i.quantity) && decide (0 < i.productID)) = []
  · simp [h1, h2, h3, h4, List.isEmpty_iff]
  · simp [h1, h2, h3, h4, List.isEmpty_iff]

/-- Every order stored in the response map is the transform of one of the
(order id, delivery date) groups. -/
theorem buildPO_values (rows : List BigQueryOrderItem) :
    ∀ kv ∈ buildPurchaseOrdersResponse rows,
      ∃ gk, transformOrderFromItems gk.1 gk.2 (groupRowsPO rows gk) = some kv.2 := by
  have aux : ∀ (keys : List (Int × String)) (acc : List (String × Order)),
      (∀ kv ∈ acc, ∃ gk, transformOrderFromItems gk.1 gk.2 (groupRowsPO rows gk) = some kv.2) →
      ∀ kv ∈ keys.foldl
          (fun acc k =>
            match transformOrderFromItems k.1 k.2 (groupRowsPO rows k) with
            | none => acc
            | some o => setAssoc ("order_" ++ toString k.1) o acc)
          acc,
        ∃ gk, transformOrderFromItems gk.1 gk.2 (groupRowsPO rows gk) = some kv.2 := by
    intro keys
    induction keys with
    | nil => intro acc hacc kv hkv; exact hacc kv hkv
    | cons k ks ih =>
      intro acc hacc kv hkv
      rw [List.foldl_cons] at hkv
      refine ih _ ?_ kv hkv
      intro kv2 hkv2
      rcases ht : transformOrderFromItems k.1 k.2 (groupRowsPO rows k) with _ | o
      all_goals rw [ht] at hkv2
      · exact hacc kv2 hkv2
      · rcases mem_setAssoc _ _ _ _ hkv2 with rfl | hkv3
        · exact ⟨k, ht⟩
        · exact hacc kv2 hkv3
  intro kv hkv
  exact aux (groupKeysPO rows) [] (by intro kv2 h; cases h) kv hkv

/-! ## Claim theorems -/

/-- C1: the twelve monthly buckets are claimed to sum all monthly-sold
events whose month name matches, regardless of year. The code instead
takes MAX(CASE ...) over the per-(year, month) rows: with 5 units sold in
January 2024 and 3 in January 2025 for one (style, size), the January
bucket is 5 — the larger of the two year-sums — not their sum 8, and the
twelve buckets sum to 5 while the monthly-sold events (and the
independently computed 24-month total) sum to 8. -/
theorem c1_monthly_pivot_takes_max_not_sum :
    ((sold_items_monthly dbC1 "ABC123456" ⟨2025, 10, 11⟩).map (fun r => r.2)).sum = 8
    ∧ (skuMetricsSingleQuery dbC1 "ABC123456" ⟨2025, 10, 11⟩).map (fun r => r.sold_january) = [5]
    ∧ (skuMetricsSingleQuery dbC1 "ABC123456" ⟨2025, 10, 11⟩).map
        (fun r => r.sold_last_24_months) = [8]
    ∧ (skuMetricsSingleQuery dbC1 "ABC123456" ⟨2025, 10, 11⟩).map
        (fun r => r.sold_january + r.sold_february + r.sold_march + r.sold_april + r.sold_may
          + r.sold_june + r.sold_july + r.sold_august + r.sold_september + r.sold_october
          + r.sold_november + r.sold_december) = [5] := by decide

/-- C3: both (order id, delivery date) groups of order 1 survive
validation, but the response keys them both as "order_1", so the map
retains only the last-written group: the 2025-01-10 order is lost. -/
theorem c3_order_key_collision_drops_group :
    (groupKeysPO c3Rows).length = 2
    ∧ transformOrderFromItems 1 "2025-01-10" (groupRowsPO c3Rows (1, "2025-01-10"))
        = some ⟨"2025-01-10", [⟨"ETIQL500", 2⟩]⟩
    ∧ transformOrderFromItems 1 "2025-02-01" (groupRowsPO c3Rows (1, "2025-02-01"))
        = some ⟨"2025-02-01", [⟨"ETIQL501", 1⟩]⟩
    ∧ buildPurchaseOrdersResponse c3Rows
        = [("order_1", ⟨"2025-02-01", [⟨"ETIQL501", 1⟩]⟩)] := by decide

/-- C6: rows are grouped by (order id, delivery date); inside a surviving
group exactly the rows with positive quantity and positive product id
survive, each becoming a line item with SKU "ETIQL" ++ product id and the
row quantity; on the spec example the two date groups produce the two
described orders, the product-0 row dropped. -/
theorem c6_grouping_and_item_filter :
    (∀ (oid : Int) (d : String) (items : List BigQueryOrderItem) (o : Order),
        transformOrderFromItems oid d items = some o →
        o.estimatedDeliveryDate = d
        ∧ o.items = (items.filter
              (fun i => decide (0 < i.quantity) && decide (0 < i.productID))).map
            (fun i => ⟨"ETIQL" ++ toString i.productID, i.quantity⟩))
    ∧ groupKeysPO c6Rows = [(1, "2025-01-10"), (1, "2025-02-01")]
    ∧ groupRowsPO c6Rows (1, "2025-01-10")
        = [⟨1, "2025-01-10", 500, "SKU500", "42", 2⟩, ⟨1, "2025-01-10", 0, "SKU0", "42", 3⟩]
    ∧ groupRowsPO c6Rows (1, "2025-02-01") = [⟨1, "2025-02-01", 501, "SKU501", "43", 1⟩]
    ∧ (groupKeysPO c6Rows).map (fun k => transformOrderFromItems k.1 k.2 (groupRowsPO c6Rows k))
        = [some ⟨"2025-01-10", [⟨"ETIQL500", 2⟩]⟩, some ⟨"2025-02-01", [⟨"ETIQL501", 1⟩]⟩] := by
  refine ⟨?_, by decide, by decide, by decide, by decide⟩
  intro oid d items o h
  rw [transform_characterization] at h
  by_cases hc : d = "" ∨ items = [] ∨ parseDate d = none
      ∨ items.filter (fun i => decide (0 < i.quantity) && decide (0 < i.productID)) = []
  · rw [if_pos hc] at h
    cases h
  · rw [if_neg hc] at h
    cases h
    exact ⟨rfl, rfl⟩

theorem c6_witness :
    (⟨"2025-01-10", [⟨"ETIQL500", 2⟩]⟩ : Order).estimatedDeliveryDate = "2025-01-10"
    ∧ (⟨"2025-01-10", [⟨"ETIQL500", 2⟩]⟩ : Order).items
        = ((groupRowsPO c6Rows (1, "2025-01-10")).filter
            (fun i => decide (0 < i.quantity) && decide (0 < i.productID))).map
          (fun i => ⟨"ETIQL" ++ toString i.productID, i.quantity⟩) :=
  c6_grouping_and_item_filter.1 1 "2025-01-10" (groupRowsPO c6Rows (1, "2025-01-10"))
    ⟨"2025-01-10", [⟨"ETIQL500", 2⟩]⟩ (by decide)

/-- C7: no emitted aggregated order has zero items; a group whose date is
empty or unparseable, or whose rows are all filtered out, produces no
order; and every order in the response map has a nonempty item list. -/
theorem c7_no_empty_orders :
    (∀ (oid : Int) (d : String) (items : List BigQueryOrderItem) (o : Order),
        transformOrderFromItems oid d items = some o → o.items ≠ [])
    ∧ (∀ (oid : Int) (d : String) (items : List BigQueryOrderItem),
        (d = "" ∨ parseDate d = none
          ∨ items.filter (fun i => decide (0 < i.quantity) && decide (0 < i.productID)) = []) →
        transformOrderFromItems oid d items = none)
    ∧ (∀ (rows : List BigQueryOrderItem) (kv : String × Order),
        kv ∈ buildPurchaseOrdersResponse rows → kv.2.items ≠ []) := by
  have h1 : ∀ (oid : Int) (d : String) (items : List BigQueryOrderItem) (o : Order),
      transformOrderFromItems oid d items = some o → o.items ≠ [] := by
    intro oid d items o h
    rw [transform_characterization] at h
    by_cases hc : d = "" ∨ items = [] ∨ parseDate d = none
        ∨ items.filter (fun i => decide (0 < i.quantity) && decide (0 < i.productID)) = []
    · rw [if_pos hc] at h
      cases h
    · rw [if_neg hc] at h
      cases h
      push_neg at hc
      intro hmap
      exact hc.2.2.2 (List.map_eq_nil.mp hmap)
  refine ⟨h1, ?_, ?_⟩
  · intro oid d items hd
    rw [transform_characterization]
    apply if_pos
    rcases hd with hd | hd | hd
    · exact Or.inl hd
    · exact Or.inr (Or.inr (Or.inl hd))
    · exact Or.inr (Or.inr (Or.inr hd))
  · intro rows kv hkv
    rcases buildPO_values rows kv hkv with ⟨gk, ht⟩
    exact h1 gk.1 gk.2 (groupRowsPO rows gk) kv.2 ht

theorem c7_witness :
    transformOrderFromItems 1 "not-a-date" c3Rows = none
    ∧ transformOrderFromItems 1 "" c3Rows = none :=
  ⟨c7_no_empty_orders.2.1 1 "not-a-date" c3Rows (Or.inr (Or.inl (by decide))),
   c7_no_empty_orders.2.1 1 "" c3Rows (Or.inl rfl)⟩

/-- C2 counterexample: the live GET /purchase-orders handler
(src/purchase_orders.go) answers a successful query with the flat row
array, not a mapping from order keys to aggregated orders. -/
theorem c2_response_is_flat_rows_not_mapping :
    (getPurchaseOrders (Except.ok ⟨[c2Row], none⟩)).body = ResponseBody.flatRows [c2Row]
    ∧ (getPurchaseOrders (Except.ok ⟨[c2Row], none⟩)).body.isOrderMap = false := by decide

/-- C2 amended: GET /purchase-orders returns HTTP 200 with the cache
directive and the flat sequence of unnested rows whose delivery date is
on or after the current date (filtered and ordered by the query); the
order-key mapping is produced only by the older aggregated handler
variant. -/
theorem c2_amended_flat_row_response (table : List BigQueryOrderItem) (todayStr : String) :
    getPurchaseOrders (Except.ok ⟨purchaseOrdersQueryRows table todayStr, none⟩)
      = ⟨200, some "private, max-age=300",
          ResponseBody.flatRows (purchaseOrdersQueryRows table todayStr)⟩
    ∧ (∀ r ∈ purchaseOrdersQueryRows table todayStr, strLe todayStr r.deliveryDate = true)
    ∧ getPurchaseOrdersAggregated (Except.ok ⟨purchaseOrdersQueryRows table todayStr, none⟩)
      = ⟨200, some "private, max-age=300",
          ResponseBody.orderMap (buildPurchaseOrdersResponse (purchaseOrdersQueryRows table todayStr))⟩ := by
  refine ⟨rfl, ?_, rfl⟩
  intro r hr
  unfold purchaseOrdersQueryRows at hr
  rw [mem_sortLe] at hr
  exact (List.mem_filter.mp hr).2

theorem c2_amended_witness :
    strLe "2025-01-01" c2Row.deliveryDate = true :=
  (c2_amended_flat_row_response [c2Row] "2025-01-01").2.1 c2Row (by decide)

/-- C9 counterexample: an upstream failure in the middle of row iteration
(after one row was delivered) is swallowed — the handler returns HTTP 200
with the partial row set instead of aborting with a 5xx. -/
theorem c9_midstream_error_returns_200_partial :
    (getSkuMetricsSingle "ABC123456" (Except.ok ⟨[c9Row], some "connection reset"⟩)).status = 200
    ∧ (getSkuMetricsSingle "ABC123456" (Except.ok ⟨[c9Row], some "connection reset"⟩)).body
        = ResponseBody.metricRows [c9Row] := by decide

/-- C9 amended: a failure of the initial query execution aborts the
request with HTTP 500 and a diagnostic details field (both handlers), but
an iterator error after some rows were read merely truncates the stream:
the rows read so far are served through the normal path. -/
theorem c9_amended_read_failure_500 :
    (∀ skuId e : String, skuId ≠ "" →
      getSkuMetricsSingle skuId (Except.error e)
        = ⟨500, none, ResponseBody.errorMsg "Failed to query BigQuery" (some e) none⟩)
    ∧ (∀ e : String, getPurchaseOrders (Except.error e)
        = ⟨500, none, ResponseBody.errorMsg "Failed to query BigQuery" (some e) none⟩)
    ∧ (∀ (skuId e : String) (rows : List MetricRow), skuId ≠ "" → rows ≠ [] →
      getSkuMetricsSingle skuId (Except.ok ⟨rows, some e⟩)
        = ⟨200, some "private, max-age=300", ResponseBody.metricRows rows⟩) := by
  refine ⟨?_, fun e => rfl, ?_⟩
  · intro skuId e hsku
    unfold getSkuMetricsSingle
    rw [if_neg hsku]
  · intro skuId e rows hsku hrows
    unfold getSkuMetricsSingle
    rw [if_neg hsku]
    have : rows.isEmpty = false := by
      rcases rows with _ | ⟨x, xs⟩
      · exact absurd rfl hrows
      · rfl
    show (if rows.isEmpty = true then _ else _) = _
    rw [this]
    simp

theorem c9_amended_witness :
    getSkuMetricsSingle "ABC123456" (Except.error "boom")
      = ⟨500, none, ResponseBody.errorMsg "Failed to query BigQuery" (some "boom") none⟩ :=
  c9_amended_read_failure_500.1 "ABC123456" "boom" (by decide)

/-- C10: in the GET /all-purchase-orders result every order has at least
one item and no remaining item has product id 0; the result is exactly
the item-filtered image of the input orders whose filtered item array is
nonempty, so an order emptied by the product-id-0 exclusion is omitted. -/
theorem c10_all_orders_nonempty_items (t : List PORecord) :
    (∀ o ∈ allPurchaseOrdersQuery t, o.items ≠ [] ∧ ∀ i ∈ o.items, i.product_id ≠ 0)
    ∧ allPurchaseOrdersQuery t
        = (t.filter (fun o =>
            decide (o.items.filter (fun i => decide (i.product_id ≠ 0)) ≠ []))).map
          filterOrderItems := by
  constructor
  · intro o ho
    rcases List.mem_filter.mp ho with ⟨ho1, ho2⟩
    constructor
    · intro hnil
      rw [hnil] at ho2
      simp at ho2
    · rcases List.mem_map.mp ho1 with ⟨o0, _, rfl⟩
      intro i hi
      have h2 := (List.mem_filter.mp hi).2
      simpa using h2
  · unfold allPurchaseOrdersQuery
    rw [List.filter_map]
    refine congrArg _ (List.filter_congr ?_)
    intro o _
    show decide (0 < (o.items.filter (fun i => decide (i.product_id ≠ 0))).length) = _
    rw [decide_eq_decide]
    exact List.length_pos

theorem c10_witness :
    (⟨2, "2025-01-11", [⟨500, "B", "42", 2⟩]⟩ : PORecord).items ≠ []
    ∧ ∀ i ∈ (⟨2, "2025-01-11", [⟨500, "B", "42", 2⟩]⟩ : PORecord).items, i.product_id ≠ 0 :=
  (c10_all_orders_nonempty_items c10Table).1 ⟨2, "2025-01-11", [⟨500, "B", "42", 2⟩]⟩ (by decide)

/-- C8: serving the single-style query result directly, an empty unified
key set yields an empty result set and hence HTTP 404 with an error
message and the requested style echoed; a nonempty key set yields a
nonempty result served as HTTP 200 with the private 300-second cache
directive. -/
theorem c8_single_style_404_or_200 (db : Db) (skuId : String) (today : Date)
    (hsku : skuId ≠ "") :
    (all_sizes db skuId today = [] →
      getSkuMetricsSingle skuId (Except.ok ⟨skuMetricsSingleQuery db skuId today, none⟩)
        = ⟨404, none, ResponseBody.errorMsg "SKU not found" none (some skuId)⟩)
    ∧ (all_sizes db skuId today ≠ [] →
      getSkuMetricsSingle skuId (Except.ok ⟨skuMetricsSingleQuery db skuId today, none⟩)
        = ⟨200, some "private, max-age=300",
            ResponseBody.metricRows (skuMetricsSingleQuery db skuId today)⟩) := by
  constructor
  · intro h
    rw [query_eq_nil_of_no_sizes h]
    unfold getSkuMetricsSingle
    rw [if_neg hsku]
    rfl
  · intro h
    have hne := query_ne_nil_of_sizes h
    unfold getSkuMetricsSingle
    rw [if_neg hsku]
    have hie : (skuMetricsSingleQuery db skuId today).isEmpty = false := by
      rcases hq : skuMetricsSingleQuery db skuId today with _ | ⟨x, xs⟩
      · exact absurd hq hne
      · rfl
    show (if (skuMetricsSingleQuery db skuId today).isEmpty = true then _ else _) = _
    rw [hie]
    simp

theorem c8_witness :
    getSkuMetricsSingle "ABC123456"
        (Except.ok ⟨skuMetricsSingleQuery dbEmpty "ABC123456" ⟨2025, 10, 11⟩, none⟩)
      = ⟨404, none, ResponseBody.errorMsg "SKU not found" none (some "ABC123456")⟩ :=
  (c8_single_style_404_or_200 dbEmpty "ABC123456" ⟨2025, 10, 11⟩ (by decide)).1 (by decide)

/-- C4 counterexample: with the same logical half size written "385" by
the inventory source and "38.5" by the open-orders source, the key union
holds two distinct raw keys and the query emits two records, both
displaying the normalized size "38.5" — the rows do not collide into one
key, because normalization is applied after the union, in the final
projection only. -/
theorem c4_normalization_after_union_cex :
    all_sizes dbC4 "ABC123456" ⟨2025, 10, 11⟩ = [("ABC123456", "385"), ("ABC123456", "38.5")]
    ∧ (skuMetricsSingleQuery dbC4 "ABC123456" ⟨2025, 10, 11⟩).length = 2
    ∧ (skuMetricsSingleQuery dbC4 "ABC123456" ⟨2025, 10, 11⟩).map (fun r => r.size)
        = ["38.5", "38.5"]
    ∧ normalizeSize "385" = normalizeSize "38.5" := by decide

/-- C4 amended: the unified key set is the set of raw (style, size) pairs
occurring in the inventory, purchased, total-sold or open-orders sources
(the monthly source does not feed key collection), with null sizes
excluded; the half-size normalization is applied to the size label after
the key union, in the final projection, so each output record shows the
normalized label of its raw key. -/
theorem c4_amended_raw_key_union (db : Db) (skuId : String) (today : Date)
    (st : String) (sz : String) :
    ((st, sz) ∈ all_sizes db skuId today ↔
      ((st, some sz) ∈ (inventory_metrics db skuId).map (fun r => r.1)
       ∨ (st, some sz) ∈ (purchased_items db skuId today).map (fun r => r.1)
       ∨ (st, sz) ∈ (sold_items_total db skuId today).map (fun r => r.1)
       ∨ (st, sz) ∈ (open_orders db skuId).map (fun r => r.1)))
    ∧ ∀ r ∈ skuMetricsSingleQuery db skuId today,
        ∃ k ∈ all_sizes db skuId today, r.sku = k.1 ∧ r.size = normalizeSize k.2 := by
  constructor
  · rw [all_sizes, List.mem_dedup]
    simp only [List.mem_append, mem_optKey_filterMap]
    tauto
  · intro r hr
    rcases mem_query_eq_mk hr with ⟨k, hk, pid, rfl⟩
    exact ⟨k, hk, rfl, rfl⟩

theorem c4_amended_witness :
    ("ABC123456", some "385") ∈ (inventory_metrics dbC4 "ABC123456").map (fun r => r.1)
    ∨ ("ABC123456", some "385") ∈ (purchased_items dbC4 "ABC123456" ⟨2025, 10, 11⟩).map (fun r => r.1)
    ∨ ("ABC123456", "385") ∈ (sold_items_total dbC4 "ABC123456" ⟨2025, 10, 11⟩).map (fun r => r.1)
    ∨ ("ABC123456", "385") ∈ (open_orders dbC4 "ABC123456").map (fun r => r.1) :=
  (c4_amended_raw_key_union dbC4 "ABC123456" ⟨2025, 10, 11⟩ "ABC123456" "385").1.mp (by decide)

theorem mkMetricRow_monthField (db : Db) (skuId : String) (today : Date)
    (k : String × String) (pid : Option Int) (m : Nat) (h1 : 1 ≤ m) (h2 : m ≤ 12) :
    monthField (mkMetricRow db skuId today k pid) m
      = monthVal (assocLookup k (sold_items_monthly_pivot db skuId today)) m := by
  interval_cases m <;> rfl

/-- C5: for every unified key the result set contains exactly one copy of
a record whose style is the key, whose size is the normalized label, and
whose numeric columns each equal the matching source aggregate when that
source has the key and 0 otherwise: SUM of inventory quantities, SUM of
purchased quantities, SUM of sold quantities, the twelve pivot buckets,
and COUNT(*) of open orders. -/
theorem c5_dense_left_join_defaults (db : Db) (skuId : String) (today : Date)
    (k : String × String) (hk : k ∈ all_sizes db skuId today) :
    ∃ r ∈ skuMetricsSingleQuery db skuId today,
      (skuMetricsSingleQuery db skuId today).countP (fun x => decide (x = r)) = 1
      ∧ r.sku = k.1
      ∧ r.size = normalizeSize k.2
      ∧ r.available_count
          = (if (k.1, some k.2) ∈ (invRows db skuId).map (fun x => x.1)
             then sumBy (invRows db skuId) (fun x => x.1) (fun x => x.2) (k.1, some k.2) else 0)
      ∧ r.purchased_count
          = (if (k.1, some k.2) ∈ (podRows db skuId today).map (fun x => x.1)
             then sumBy (podRows db skuId today) (fun x => x.1) (fun x => x.2) (k.1, some k.2)
             else 0)
      ∧ r.sold_last_24_months
          = (if k ∈ (soldRows db skuId today).map (fun x => x.1)
             then sumBy (soldRows db skuId today) (fun x => x.1) (fun x => x.2.2) k else 0)
      ∧ (∀ m, 1 ≤ m → m ≤ 12 →
          monthField r m
            = (if k ∈ (sold_items_monthly db skuId today).map (fun x => x.1.1)
               then pivotBucket (monthGroup db skuId today k) m else 0))
      ∧ r.open_orders_quantity
          = (if k ∈ openKeyRows db skuId
             then (((openKeyRows db skuId).filter (fun x => decide (x = k))).length : Int)
             else 0) := by
  have hmem := mkMetricRow_mem_query db skuId today k hk
  refine ⟨mkMetricRow db skuId today k (productIdLookup db k), hmem, ?_, rfl, rfl, ?_, ?_, ?_, ?_, ?_⟩
  · refine countP_eq_one_of_nodup_mem ?_ hmem
    unfold skuMetricsSingleQuery
    exact List.nodup_dedup _
  · show (assocLookup (k.1, some k.2) (inventory_metrics db skuId)).getD 0 = _
    unfold inventory_metrics
    rw [assocLookup_groupSums]
    by_cases hc : (k.1, some k.2) ∈ (invRows db skuId).map (fun x => x.1)
    · rw [if_pos hc, if_pos hc]
      rfl
    · rw [if_neg hc, if_neg hc]
      rfl
  · show (assocLookup (k.1, some k.2) (purchased_items db skuId today)).getD 0 = _
    unfold purchased_items
    rw [assocLookup_groupSums]
    by_cases hc : (k.1, some k.2) ∈ (podRows db skuId today).map (fun x => x.1)
    · rw [if_pos hc, if_pos hc]
      rfl
    · rw [if_neg hc, if_neg hc]
      rfl
  · show (assocLookup k (sold_items_total db skuId today)).getD 0 = _
    unfold sold_items_total
    rw [assocLookup_groupSums]
    by_cases hc : k ∈ (soldRows db skuId today).map (fun x => x.1)
    · rw [if_pos hc, if_pos hc]
      rfl
    · rw [if_neg hc, if_neg hc]
      rfl
  · intro m h1 h2
    rw [mkMetricRow_monthField db skuId today k _ m h1 h2, assocLookup_pivot]
    by_cases hc : k ∈ (sold_items_monthly db skuId today).map (fun x => x.1.1)
    · rw [if_pos hc, if_pos hc]
      exact monthVal_buckets _ m h1 h2
    · rw [if_neg hc, if_neg hc]
      rfl
  · show (assocLookup k (open_orders db skuId)).getD 0 = _
    unfold open_orders
    rw [assocLookup_groupCounts]
    by_cases hc : k ∈ openKeyRows db skuId
    · rw [if_pos hc, if_pos hc]
      rfl
    · rw [if_neg hc, if_neg hc]
      rfl

theorem c5_witness :
    (skuMetricsSingleQuery dbC5 "ABC123456" ⟨2025, 10, 11⟩
      = [⟨"ABC123456", none, "10", 0, 0, 0, 0, 0, 0, 0, 0, 0, 0, 0, 0, 0, 0, 0, 7⟩])
    ∧ ∃ r ∈ skuMetricsSingleQuery dbC5 "ABC123456" ⟨2025, 10, 11⟩,
      (skuMetricsSingleQuery dbC5 "ABC123456" ⟨2025, 10, 11⟩).countP (fun x => decide (x = r)) = 1
      ∧ r.sku = ("ABC123456", "10").1
      ∧ r.size = normalizeSize ("ABC123456", "10").2
      ∧ r.available_count
          = (if (("ABC123456", "10").1, some ("ABC123456", "10").2)
                ∈ (invRows dbC5 "ABC123456").map (fun x => x.1)
             then sumBy (invRows dbC5 "ABC123456") (fun x => x.1) (fun x => x.2)
                (("ABC123456", "10").1, some ("ABC123456", "10").2) else 0)
      ∧ r.purchased_count
          = (if (("ABC123456", "10").1, some ("ABC123456", "10").2)
                ∈ (podRows dbC5 "ABC123456" ⟨2025, 10, 11⟩).map (fun x => x.1)
             then sumBy (podRows dbC5 "ABC123456" ⟨2025, 10, 11⟩) (fun x => x.1) (fun x => x.2)
                (("ABC123456", "10").1, some ("ABC123456", "10").2) else 0)
      ∧ r.sold_last_24_months
          = (if ("ABC123456", "10") ∈ (soldRows dbC5 "ABC123456" ⟨2025, 10, 11⟩).map (fun x => x.1)
             then sumBy (soldRows dbC5 "ABC123456" ⟨2025, 10, 11⟩) (fun x => x.1) (fun x => x.2.2)
                ("ABC123456", "10") else 0)
      ∧ (∀ m, 1 ≤ m → m ≤ 12 →
          monthField r m
            = (if ("ABC123456", "10")
                  ∈ (sold_items_monthly dbC5 "ABC123456" ⟨2025, 10, 11⟩).map (fun x => x.1.1)
               then pivotBucket (monthGroup dbC5 "ABC123456" ⟨2025, 10, 11⟩ ("ABC123456", "10")) m
               else 0))
      ∧ r.open_orders_quantity
          = (if ("ABC123456", "10") ∈ openKeyRows dbC5 "ABC123456"
             then (((openKeyRows dbC5 "ABC123456").filter
                (fun x => decide (x = ("ABC123456", "10")))).length : Int)
             else 0) :=
  ⟨by decide,
   c5_dense_left_join_defaults dbC5 "ABC123456" ⟨2025, 10, 11⟩ ("ABC123456", "10") (by decide)⟩

end Etiql

